import Mathlib

/-!
Verification development for the simplechat repository.

The repository has a single source file, `src/lambda/index.py`: a FastAPI
application with two endpoints, `GET /health` and `POST /chat`, forwarding
chat messages to the AWS Bedrock `invoke_model` API.  This file gives a
shallow embedding of that program in Lean:

* Python-level JSON values (the decoded provider response body) become the
  inductive type `JVal`, with Python truthiness (`truthy`) and the
  `dict.get` method (`pyGetD`, which fails on a non-dict receiver just as
  Python raises `AttributeError` there);
* the chat handler (lines 59-114 of index.py) becomes the pure function
  `chat`, with the outbound Bedrock call abstracted as a function from the
  model id and the serialized payload to a `ProviderResult` (the call
  raised a `botocore ClientError`, or succeeded with a decoded JSON body,
  or raised some other exception);
* the health handler (lines 55-57) becomes `health`;
* the module-level lazy client initialization (lines 46-53 for
  `startup_event`, lines 63-66 inside `chat`) becomes the step function
  `stepClient` on the `Option BedrockClient` module state.
-/

namespace SimpleChat

/-- A decoded JSON value, the result of `json.loads` on the provider
response body in index.py line 98.  An `obj` carries its fields as a
key-value list; Python dicts have unique keys, so `List.lookup` agrees
with Python dict lookup. -/
inductive JVal where
  | null
  | bool (b : Bool)
  | num (n : Int)
  | str (s : String)
  | arr (elems : List JVal)
  | obj (fields : List (String × JVal))

/-- Python truthiness of a JSON value: `None`, `False`, `0`, the empty
string, the empty list and the empty dict are falsy, everything else is
truthy. -/
def truthy : JVal → Bool
  | .null => false
  | .bool b => b
  | .num n => n != 0
  | .str s => s != ""
  | .arr elems => !elems.isEmpty
  | .obj fields => !fields.isEmpty

/-- Python `receiver.get(key, default)`.  On a dict it returns the value
of the key, or the default when the key is absent.  On any non-dict
receiver Python raises `AttributeError`; that is the `.error ()` case. -/
def pyGetD : JVal → String → JVal → Except Unit JVal
  | .obj fields, key, dflt => .ok ((fields.lookup key).getD dflt)
  | _, _, _ => .error ()

/-- Response validation, index.py lines 102-107:

  out = body.get("output", \x7b\x7d).get("message", \x7b\x7d).get("content")
  if not out or not isinstance(out, list) or not out[0].get("text"):
      raise HTTPException(502, "Invalid response from model")
  assistant_text = out[0]["text"]

`.error ()` models an `AttributeError` escaping (a `.get` was called on a
non-dict), `.ok none` models the 502 branch, and `.ok (some t)` models
validation succeeding with `assistant_text = t`.  When `out` is a truthy
list it is nonempty, so `out[0]` is its head; and when `out[0].get("text")`
is truthy the key is present, so `out[0]["text"]` is that same value. -/
def extractText (body : JVal) : Except Unit (Option JVal) := do
  let o1 ← pyGetD body "output" (.obj [])
  let o2 ← pyGetD o1 "message" (.obj [])
  let out ← pyGetD o2 "content" .null
  if truthy out then
    match out with
    | .arr (first :: _) => do
        let t ← pyGetD first "text" .null
        if truthy t then return some t else return none
    | _ => return none
  else
    return none

/-- A conversation entry of the inbound request, per the data model: a
role string and a content string. -/
structure Message where
  role : String
  content : String
deriving DecidableEq, Repr

/-- One element of the Bedrock `content` list: `\x7b"text": ...\x7d`. -/
structure ContentBlock where
  text : String
deriving DecidableEq, Repr

/-- One element of the Bedrock `messages` list, index.py lines 76-79. -/
structure BedrockMessage where
  role : String
  content : List ContentBlock
deriving DecidableEq, Repr

/-- The `inferenceConfig` block of the payload, index.py lines 83-88. -/
structure InferenceConfig where
  maxTokens : Nat
  stopSequences : List String
  temperature : ℚ
  topP : ℚ
deriving DecidableEq, Repr

/-- The Bedrock payload, index.py lines 81-89. -/
structure Payload where
  messages : List BedrockMessage
  inferenceConfig : InferenceConfig
deriving DecidableEq, Repr

/-- The loop of index.py lines 73-79: each message dict is mapped to
`\x7b"role": role, "content": [\x7b"text": content\x7d]\x7d`, in order. -/
def toBedrockMessages : List Message → List BedrockMessage
  | [] => []
  | m :: rest => { role := m.role, content := [{ text := m.content }] } :: toBedrockMessages rest

/-- The fixed inference configuration of index.py lines 83-88. -/
def defaultInferenceConfig : InferenceConfig :=
  { maxTokens := 512, stopSequences := [], temperature := 7/10, topP := 9/10 }

/-- The payload built from a message list, index.py lines 81-89. -/
def buildPayload (messages : List Message) : Payload :=
  { messages := toBedrockMessages messages, inferenceConfig := defaultInferenceConfig }

/-- Lines 69-70: the conversation history is copied and the new user
message appended. -/
def chatMessages (hist : List Message) (message : String) : List Message :=
  hist ++ [{ role := "user", content := message }]

/-- The payload `chat` hands to the provider for a given request. -/
def chatPayload (hist : List Message) (message : String) : Payload :=
  buildPayload (chatMessages hist message)

/-- Outcome of the `try` block of index.py lines 92-98 (the
`invoke_model` call, the `resp["body"].read()` and the `json.loads`):
either some step raised a `botocore ClientError` with the given
description (the only exception class the `except` clause catches),
or the block succeeded and the body decoded to the given JSON value,
or some step raised an exception of any other class. -/
inductive ProviderResult where
  | clientError (description : String)
  | ok (body : JVal)
  | otherError (description : String)

/-- The abstracted provider: the outcome of the try block as a function
of the model id and the payload passed to `invoke_model`. -/
def Provider := String → Payload → ProviderResult

/-- An entry of the returned conversation history.  Entries coming from
the request have string content; the appended assistant entry carries
whatever JSON value validation extracted as `assistant_text`. -/
structure HistEntry where
  role : String
  content : JVal

/-- The history entry a request message denotes. -/
def Message.toEntry (m : Message) : HistEntry :=
  { role := m.role, content := .str m.content }

/-- The success body of index.py lines 110-114. -/
structure ChatSuccessBody where
  success : Bool
  response : JVal
  conversationHistory : List HistEntry

/-- Observable outcome of one run of the chat handler: an HTTP response
with a status and a success body (FastAPI returns the dict with status
200), an `HTTPException` with a status and a detail string, or an
exception propagating out of the handler unhandled. -/
inductive ChatOutcome where
  | ok (status : Nat) (body : ChatSuccessBody)
  | httpError (status : Nat) (detail : String)
  | crash

/-- The tail of the chat handler given the decoded provider body, index.py
lines 102-114: validate the body, on failure raise the 502, on success
append the assistant message and return the success dict (HTTP 200).
`chat` below is the whole handler, lines 59-114, with the provider call
abstracted; the client initialization on lines 63-66 only touches the
module state modeled separately by `stepClient` and does not affect the
response. -/
def respond (hist : List Message) (message : String) (body : JVal) : ChatOutcome :=
  match extractText body with
  | .error _ => .crash
  | .ok none => .httpError 502 "Invalid response from model"
  | .ok (some t) =>
      .ok 200 { success := true
              , response := t
              , conversationHistory :=
                  (chatMessages hist message).map Message.toEntry
                    ++ [{ role := "assistant", content := t }] }

/-- The chat handler continued: the try/except of lines 92-100 around the
provider call, then `respond`. -/
def chat (modelId : String) (hist : List Message) (message : String)
    (provider : Provider) : ChatOutcome :=
  match provider modelId (chatPayload hist message) with
  | .clientError e => .httpError 502 ("Bedrock invocation failed: " ++ e)
  | .otherError _ => .crash
  | .ok body => respond hist message body

/-- The body returned by `GET /health`. -/
structure HealthResponse where
  status : String
  model : Option String
deriving DecidableEq, Repr

/-- The provider client handle created by `boto3.client("bedrock-runtime",
region_name=region)`. -/
structure BedrockClient where
  service : String
  region : String
deriving DecidableEq, Repr

/-- Lookup in the process environment with a default,
`os.environ.get(key, dflt)`. -/
def envGet (env : List (String × String)) (key dflt : String) : String :=
  (env.lookup key).getD dflt

/-- The module-level constant of index.py line 25, read once from the
environment at process start. -/
def MODEL_ID (env : List (String × String)) : String :=
  envGet env "MODEL_ID" "us.amazon.nova-lite-v1:0"

/-- The client constructed on lines 52 and 66: region from the
environment with default us-east-1. -/
def mkBedrockClient (env : List (String × String)) : BedrockClient :=
  { service := "bedrock-runtime", region := envGet env "AWS_REGION" "us-east-1" }

/-- The health handler, index.py lines 55-57: it returns status ok and
the configured model id when the module-level client handle is set, null
otherwise.  It is a total function: the endpoint never fails. -/
def health (bedrock_client : Option BedrockClient) (modelId : String) : HealthResponse :=
  { status := "ok"
  , model := match bedrock_client with
             | some _ => some modelId
             | none => none }

/-- The operations that touch the module-level client handle:
`startup_event` (lines 46-53) and the guard at the top of `chat`
(lines 63-66). -/
inductive Op where
  | startup
  | chatInit
deriving DecidableEq, Repr

/-- Effect of one operation on the module state: both `startup_event` and
the chat guard create the client only when it is still `None`,
and leave it untouched otherwise. -/
def stepClient (env : List (String × String)) (s : Option BedrockClient) (_ : Op) :
    Option BedrockClient :=
  match s with
  | none => some (mkBedrockClient env)
  | some c => some c

/-- The module state after a sequence of operations. -/
def runOps (env : List (String × String)) (s : Option BedrockClient) (ops : List Op) :
    Option BedrockClient :=
  ops.foldl (stepClient env) s

/-! ## Helper lemmas -/

/-- The payload-building loop of lines 73-79 is a map over the message
list. -/
theorem toBedrockMessages_eq_map (l : List Message) :
    toBedrockMessages l =
      l.map (fun m => { role := m.role, content := [{ text := m.content }] }) := by
  induction l with
  | nil => rfl
  | cons m rest ih => simp [toBedrockMessages, ih]

/-- Taking the image of the original history back off the front of the
extended history. -/
theorem take_map_append (hist : List Message) (rest : List HistEntry) :
    (hist.map Message.toEntry ++ rest).take hist.length = hist.map Message.toEntry :=
  List.take_left' (List.length_map hist Message.toEntry)

/-- The invocation-failure detail string is never empty: it always starts
with its fixed 27-character prefix. -/
theorem bedrock_detail_ne_empty (e : String) :
    ("Bedrock invocation failed: " ++ e) ≠ "" := by
  intro h
  rw [String.congr_append] at h
  have hdata : ("Bedrock invocation failed: ").data ++ e.data = ("" : String).data :=
    congrArg String.data h
  have hlen := congrArg List.length hdata
  rw [List.length_append] at hlen
  have h1 : ("Bedrock invocation failed: ").data.length = 27 := by decide
  have h2 : ("" : String).data.length = 0 := by decide
  rw [h1, h2] at hlen
  omega

/-- The two 502 detail strings of the handler never coincide, whatever
the embedded client-error description is. -/
theorem bedrock_detail_ne_invalid (e : String) :
    ("Bedrock invocation failed: " ++ e) ≠ "Invalid response from model" := by
  intro h
  rw [String.congr_append] at h
  have hdata : ("Bedrock invocation failed: ").data ++ e.data =
      ("Invalid response from model").data :=
    congrArg String.data h
  have hlen := congrArg List.length hdata
  rw [List.length_append] at hlen
  have h1 : ("Bedrock invocation failed: ").data.length = 27 := by decide
  have h2 : ("Invalid response from model").data.length = 27 := by decide
  rw [h1, h2] at hlen
  have he : e.data = [] := List.length_eq_zero.mp (by omega)
  rw [he, List.append_nil] at hdata
  exact absurd hdata (by decide)

/-! ## Claims -/

/-- C1: for every chat request with message m and history H, if the
provider call succeeds and its decoded body passes shape validation
yielding assistant text t, then POST /chat returns HTTP 200 with success
true, response t, and a conversation history equal to H, then the new
user message, then the new assistant message, in that order. -/
theorem chat_success_shape (modelId : String) (hist : List Message) (message : String)
    (provider : Provider) (body t : JVal)
    (hp : provider modelId (chatPayload hist message) = .ok body)
    (hv : extractText body = .ok (some t)) :
    chat modelId hist message provider =
      .ok 200 { success := true
              , response := t
              , conversationHistory :=
                  hist.map Message.toEntry
                    ++ [{ role := "user", content := .str message }]
                    ++ [{ role := "assistant", content := t }] } := by
  unfold chat
  rw [hp]
  show respond hist message body = _
  unfold respond
  rw [hv]
  simp [chatMessages, Message.toEntry]

/-- Concrete provider body of the first spec scenario (reply text
"hi there"). -/
def scenarioBody : JVal :=
  .obj [("output", .obj [("message", .obj [("content",
    .arr [.obj [("text", .str "hi there")]])])])]

/-- Witness for C1 at the first spec scenario: message "hello", empty
history, provider replying "hi there". -/
theorem chat_success_shape_witness :
    chat "us.amazon.nova-lite-v1:0" [] "hello" (fun _ _ => .ok scenarioBody) =
      .ok 200 { success := true
              , response := .str "hi there"
              , conversationHistory :=
                  ([] : List Message).map Message.toEntry
                    ++ [{ role := "user", content := .str "hello" }]
                    ++ [{ role := "assistant", content := .str "hi there" }] } :=
  chat_success_shape "us.amazon.nova-lite-v1:0" [] "hello" (fun _ _ => .ok scenarioBody)
    scenarioBody (.str "hi there") rfl rfl

/-- C2: on success the returned conversation history has length N+2 and
its first N entries are the input history entries unchanged, in order. -/
theorem chat_history_frame (modelId : String) (hist : List Message) (message : String)
    (provider : Provider) (status : Nat) (respBody : ChatSuccessBody)
    (h : chat modelId hist message provider = .ok status respBody) :
    respBody.conversationHistory.length = hist.length + 2 ∧
    respBody.conversationHistory.take hist.length = hist.map Message.toEntry := by
  unfold chat at h
  split at h
  · exact absurd h (by simp)
  · exact absurd h (by simp)
  · unfold respond at h
    split at h
    · exact absurd h (by simp)
    · exact absurd h (by simp)
    · injection h with hs hb
      subst hb
      constructor
      · simp [chatMessages]
      · rw [chatMessages, List.map_append, List.append_assoc]
        exact take_map_append hist _

/-- Concrete provider body of the second spec scenario (reply text
"d"). -/
def scenarioBody2 : JVal :=
  .obj [("output", .obj [("message", .obj [("content",
    .arr [.obj [("text", .str "d")]])])])]

/-- Witness for C2 at the second spec scenario: prior history a, b, new
message c, provider replying d. -/
theorem chat_history_frame_witness :
    ([ { role := "user", content := JVal.str "a" }
     , { role := "assistant", content := JVal.str "b" }
     , { role := "user", content := JVal.str "c" }
     , { role := "assistant", content := JVal.str "d" } ] : List HistEntry).length =
      ([⟨"user", "a"⟩, ⟨"assistant", "b"⟩] : List Message).length + 2 ∧
    ([ { role := "user", content := JVal.str "a" }
     , { role := "assistant", content := JVal.str "b" }
     , { role := "user", content := JVal.str "c" }
     , { role := "assistant", content := JVal.str "d" } ] : List HistEntry).take
        ([⟨"user", "a"⟩, ⟨"assistant", "b"⟩] : List Message).length =
      ([⟨"user", "a"⟩, ⟨"assistant", "b"⟩] : List Message).map Message.toEntry :=
  chat_history_frame "us.amazon.nova-lite-v1:0" [⟨"user", "a"⟩, ⟨"assistant", "b"⟩] "c"
    (fun _ _ => .ok scenarioBody2) 200
    { success := true
    , response := JVal.str "d"
    , conversationHistory :=
        [ { role := "user", content := JVal.str "a" }
        , { role := "assistant", content := JVal.str "b" }
        , { role := "user", content := JVal.str "c" }
        , { role := "assistant", content := JVal.str "d" } ] }
    rfl

/-- C3: the payload chat hands to the provider maps each entry of the
history-plus-new-user-message list to a Bedrock message with the same
role and the text wrapped in a singleton content list, preserving order,
and carries the fixed inference configuration block maxTokens 512,
stopSequences empty, temperature 0.7, topP 0.9, independent of caller
input. -/
theorem chat_payload_spec (hist : List Message) (message : String) :
    (chatPayload hist message).messages =
      (chatMessages hist message).map
        (fun m => { role := m.role, content := [{ text := m.content }] }) ∧
    (chatPayload hist message).inferenceConfig =
      { maxTokens := 512, stopSequences := [], temperature := 7/10, topP := 9/10 } :=
  ⟨toBedrockMessages_eq_map _, rfl⟩

/-- C4: if the provider invocation raises the client-level error the
handler catches (a botocore ClientError with description e), POST /chat
returns HTTP 502 and the detail is a non-empty string embedding that
description after the fixed failure prefix. -/
theorem chat_client_error (modelId : String) (hist : List Message) (message : String)
    (provider : Provider) (e : String)
    (hp : provider modelId (chatPayload hist message) = .clientError e) :
    chat modelId hist message provider =
      .httpError 502 ("Bedrock invocation failed: " ++ e) ∧
    ("Bedrock invocation failed: " ++ e) ≠ "" := by
  constructor
  · unfold chat
    rw [hp]
  · exact bedrock_detail_ne_empty e

/-- Witness for C4 at a concrete client error. -/
theorem chat_client_error_witness :
    chat "us.amazon.nova-lite-v1:0" [] "hello"
        (fun _ _ => .clientError "AccessDeniedException") =
      .httpError 502 ("Bedrock invocation failed: " ++ "AccessDeniedException") ∧
    ("Bedrock invocation failed: " ++ "AccessDeniedException") ≠ "" :=
  chat_client_error "us.amazon.nova-lite-v1:0" [] "hello"
    (fun _ _ => .clientError "AccessDeniedException") "AccessDeniedException" rfl

/-- Provider body whose content list holds a bare string instead of a
dict: the source validation reaches out[0].get("text") on a non-dict and
raises AttributeError, so the handler crashes instead of answering. -/
def crashBody : JVal :=
  .obj [("output", .obj [("message", .obj [("content", .arr [.str "hi"])])])]

/-- Counterexample to C5 as stated: this body falls under the claim (its
first content element has no text member), yet the handler does not
return the 502 with the fixed detail — the validation probe itself raises
and the exception propagates unhandled. -/
theorem chat_invalid_response_cex :
    chat "us.amazon.nova-lite-v1:0" [] "hello" (fun _ _ => .ok crashBody) =
      ChatOutcome.crash ∧
    chat "us.amazon.nova-lite-v1:0" [] "hello" (fun _ _ => .ok crashBody) ≠
      .httpError 502 "Invalid response from model" :=
  ⟨rfl, fun h => ChatOutcome.noConfusion h⟩

/-- C5 amended: for every decoded provider response body on which the
validation probe of lines 103-104 completes without raising (every value
it calls .get on is a dict or was defaulted, and when the content value
is a truthy list its first element is a dict), a validation failure —
path missing or falsy, content not a list, or first-element text missing
or falsy — yields HTTP 502 with the single fixed detail
"Invalid response from model"; a body on which the probe hits a non-dict
instead makes the handler raise an unhandled exception. -/
theorem chat_invalid_response (modelId : String) (hist : List Message) (message : String)
    (provider : Provider) (body : JVal)
    (hp : provider modelId (chatPayload hist message) = .ok body) :
    (extractText body = .ok none →
      chat modelId hist message provider = .httpError 502 "Invalid response from model") ∧
    (extractText body = .error () →
      chat modelId hist message provider = ChatOutcome.crash) := by
  constructor
  · intro hv
    unfold chat
    rw [hp]
    show respond hist message body = _
    unfold respond
    rw [hv]
  · intro hv
    unfold chat
    rw [hp]
    show respond hist message body = _
    unfold respond
    rw [hv]

/-- Provider body with an empty content list. -/
def emptyContentBody : JVal :=
  .obj [("output", .obj [("message", .obj [("content", .arr [])])])]

/-- Witness for the amended C5 at the empty-content-list body. -/
theorem chat_invalid_response_witness :
    chat "us.amazon.nova-lite-v1:0" [] "hello" (fun _ _ => .ok emptyContentBody) =
      .httpError 502 "Invalid response from model" :=
  (chat_invalid_response "us.amazon.nova-lite-v1:0" [] "hello"
    (fun _ _ => .ok emptyContentBody) emptyContentBody rfl).1 rfl

/-- C6: GET /health always succeeds with HTTP 200 and status ok; the
model field is the configured model id once the client handle is
initialized and null while it is not. -/
theorem health_spec (c : BedrockClient) (modelId : String) :
    health (some c) modelId = { status := "ok", model := some modelId } ∧
    health none modelId = { status := "ok", model := none } :=
  ⟨rfl, rfl⟩

/-- C7: once the client handle is initialized, any two health calls of
the same process return the same model value, namely the process-lifetime
MODEL_ID read once from the environment. -/
theorem health_idempotent (env : List (String × String)) (c1 c2 : BedrockClient) :
    (health (some c1) (MODEL_ID env)).model = (health (some c2) (MODEL_ID env)).model ∧
    (health (some c1) (MODEL_ID env)).model = some (MODEL_ID env) :=
  ⟨rfl, rfl⟩

/-- Once the handle exists, every later startup or chat operation leaves
it exactly as it is. -/
theorem runOps_some (env : List (String × String)) (c : BedrockClient) (ops : List Op) :
    runOps env (some c) ops = some c := by
  induction ops with
  | nil => rfl
  | cons op rest ih => exact ih

/-- C8: over every sequence of startup and chat operations the provider
client handle is created at most once — starting uninitialized, any
nonempty run ends with exactly the client built once from the
environment, and a run starting from an existing handle never replaces
it. -/
theorem client_init_once (env : List (String × String)) (ops : List Op) (c : BedrockClient) :
    runOps env (some c) ops = some c ∧
    (ops ≠ [] → runOps env none ops = some (mkBedrockClient env)) := by
  refine ⟨runOps_some env c ops, ?_⟩
  intro hne
  cases ops with
  | nil => exact absurd rfl hne
  | cons op rest => exact runOps_some env (mkBedrockClient env) rest

/-- Witness for C8: a startup followed by a chat-guard initialization. -/
theorem client_init_once_witness :
    runOps [] (some (mkBedrockClient [])) [Op.startup, Op.chatInit] =
      some (mkBedrockClient []) ∧
    runOps [] none [Op.startup, Op.chatInit] = some (mkBedrockClient []) :=
  ⟨(client_init_once [] [Op.startup, Op.chatInit] (mkBedrockClient [])).1,
   (client_init_once [] [Op.startup, Op.chatInit] (mkBedrockClient [])).2 (by simp)⟩

/-- C9: the 502 whose detail carries the invocation-failure prefix is
returned exactly when the try block around the provider call raised a
botocore ClientError; an exception of any other class raised there is
not converted to an HTTP error and propagates out of the handler. -/
theorem chat_error_mapping (modelId : String) (hist : List Message) (message : String)
    (provider : Provider) :
    ((∃ e, chat modelId hist message provider =
        .httpError 502 ("Bedrock invocation failed: " ++ e)) ↔
      (∃ e, provider modelId (chatPayload hist message) = .clientError e)) ∧
    (∀ e, provider modelId (chatPayload hist message) = .otherError e →
      chat modelId hist message provider = ChatOutcome.crash) := by
  refine ⟨⟨?_, ?_⟩, ?_⟩
  · rintro ⟨e, he⟩
    unfold chat at he
    cases hpr : provider modelId (chatPayload hist message) with
    | clientError e2 => exact ⟨e2, rfl⟩
    | otherError e2 =>
        rw [hpr] at he
        simp at he
    | ok body =>
        rw [hpr] at he
        replace he : respond hist message body =
            ChatOutcome.httpError 502 ("Bedrock invocation failed: " ++ e) := he
        unfold respond at he
        split at he
        · simp at he
        · injection he with h1 h2
          exact absurd h2.symm (bedrock_detail_ne_invalid e)
        · simp at he
  · rintro ⟨e, hpr⟩
    refine ⟨e, ?_⟩
    unfold chat
    rw [hpr]
  · intro e hpr
    unfold chat
    rw [hpr]

/-- Witness for C9: a non-ClientError exception in the try block leaves
the handler as a crash, not a 502. -/
theorem chat_error_mapping_witness :
    chat "us.amazon.nova-lite-v1:0" [] "hello"
        (fun _ _ => .otherError "JSONDecodeError") = ChatOutcome.crash :=
  (chat_error_mapping "us.amazon.nova-lite-v1:0" [] "hello"
    (fun _ _ => .otherError "JSONDecodeError")).2 "JSONDecodeError" rfl

/-- C10: the request/response transformation is deterministic — two runs
with equal model id, equal request (message and history) and the same
abstracted provider function produce identical outcomes. -/
theorem chat_deterministic (modelId1 modelId2 : String) (hist1 hist2 : List Message)
    (message1 message2 : String) (provider1 provider2 : Provider)
    (hm : modelId1 = modelId2) (hh : hist1 = hist2) (hmsg : message1 = message2)
    (hp : provider1 = provider2) :
    chat modelId1 hist1 message1 provider1 = chat modelId2 hist2 message2 provider2 := by
  subst hm
  subst hh
  subst hmsg
  subst hp
  rfl

/-- Witness for C10 at a concrete request and provider. -/
theorem chat_deterministic_witness :
    chat "us.amazon.nova-lite-v1:0" [] "hello" (fun _ _ => .clientError "x") =
      chat "us.amazon.nova-lite-v1:0" [] "hello" (fun _ _ => .clientError "x") :=
  chat_deterministic "us.amazon.nova-lite-v1:0" "us.amazon.nova-lite-v1:0" [] []
    "hello" "hello" (fun _ _ => .clientError "x") (fun _ _ => .clientError "x")
    rfl rfl rfl rfl

end SimpleChat
